import Mathlib

/-!
Verification of the fetch/join/aggregate/grade pipeline of the Looker
usage-health reporting service (`rmli`).  The definitions below are a
shallow embedding of `src/backend/src/rmli/views.py` and
`src/backend/src/rmli/models.py`: Python ints are `Int`/`Nat`, Python
floats produced by true division and by `statistics.median` are `ℚ`
(int inputs only, so no rounding is involved), Python `sorted` is the
stable `List.insertionSort`, exceptions are `Except`, and the `backoff`
decorator / pagination loops are explicit recursion.
-/

namespace RMLI

/-- The qualitative grade of a report (`models.py`, `Grade`). -/
inductive Grade where
  | bad
  | ok
  | good
  deriving DecidableEq, Repr

/-- Exception kinds relevant to the retry policy.  `sdk code` stands for
`looker_sdk.error.SDKError` (the class the `backoff` decorator catches);
`other code` stands for any other exception; `upstreamExhausted` is the
distinct exhaustion kind postulated by the spec (§7) — the source never
raises it, and the constructor exists so that statements about it can be
made. -/
inductive Err where
  | sdk (code : Nat)
  | other (code : Nat)
  | upstreamExhausted
  deriving DecidableEq, Repr

/-- The retry classification used by the code: `backoff.on_exception`
is configured with exception class `SDKError`, so exactly the `sdk`
kind is treated as transient. -/
def Err.isTransient : Err → Bool
  | .sdk _ => true
  | _ => false

/-- `@backoff.on_exception(backoff.expo, SDKError, max_tries=3)`:
`op` is the decorated body, indexed by the attempt number; `remaining`
is the number of invocations still allowed.  Returns the outcome
together with the total number of invocations made.  A caught transient
error triggers a re-invocation while at least two invocations remain;
any other error, or exhaustion of the budget, re-raises the error
unchanged. -/
def backoffGo (op : Nat → Except Err α) : Nat → Nat → Except Err α × Nat
  | attempt, remaining =>
    match op attempt with
    | .ok a => (.ok a, attempt + 1)
    | .error e =>
      match remaining with
      | 0 => (.error e, attempt + 1)
      | r + 1 =>
        if e.isTransient && 0 < r then backoffGo op (attempt + 1) r
        else (.error e, attempt + 1)

/-- The decorated call with the budget used throughout `views.py`
(`max_tries=3`). -/
def backoffRetry (op : Nat → Except Err α) (maxTries : Nat) : Except Err α × Nat :=
  backoffGo op 0 maxTries

/-- One row of the `system__activity/history` usage query of
`get_unused_explores` (fields `query.model`, `query.view`,
`history.query_run_count`). -/
structure UsageRow where
  query_model : String
  query_view : String
  query_run_count : Int
  deriving DecidableEq, Repr

/-- One catalog explore key as accumulated by the model-listing loops
(`{"model": ..., "explore": ...}`). -/
structure ExploreKey where
  model_name : String
  explore_name : String
  deriving DecidableEq, Repr

/-- `rmli.models.ExploreQueries` (model, explore, query_run_count). -/
structure ExploreQueries where
  model_name : String
  explore_name : String
  query_count : Int
  deriving DecidableEq, Repr

/-- Inner summation loop of `get_unused_explores` (views.py 363-370):
the counter starts at 0 and each usage row whose `query.model` and
`query.view` equal the explore's key adds its `history.query_run_count`. -/
def exploreRunCount (results : List UsageRow) (m e : String) : Int :=
  results.foldl
    (fun acc r =>
      if r.query_model == m && r.query_view == e then acc + r.query_run_count else acc)
    0

/-- Join of the explore catalog with usage rows (views.py 362-372):
every catalog explore is kept, in order, and receives the summed run
count of its exactly-matching usage rows. -/
def joinExploreUsage (explores : List ExploreKey) (results : List UsageRow) :
    List ExploreQueries :=
  explores.map
    (fun ex => ⟨ex.model_name, ex.explore_name,
      exploreRunCount results ex.model_name ex.explore_name⟩)

/-- A dashboard as returned by `client.all_dashboards(fields="id,title")`:
both attributes are optional in the SDK. -/
structure RawDashboard where
  id : Option String
  title : Option String
  deriving DecidableEq, Repr

/-- One row of the dashboard usage query (fields `history.real_dash_id`,
`history.query_run_count`). -/
structure HistoryRow where
  real_dash_id : Option String
  query_run_count : Int
  deriving DecidableEq, Repr

/-- `rmli.models.DashboardUsage`. -/
structure DashboardUsage where
  dashboard_id : String
  dashboard_title : String
  query_count : Int
  deriving DecidableEq, Repr

/-- Python truthiness of an optional string: `None` and `""` are falsy. -/
def pyTruthy : Option String → Bool
  | none => false
  | some s => !(s == "")

/-- Inner summation loop of `get_dashboard_usage` (views.py 172-175):
sum of `history.query_run_count` over rows whose `history.real_dash_id`
equals the dashboard's `id` (`Option` equality, as Python `==` compares
`None` values too). -/
def dashRunCount (results : List HistoryRow) (id : Option String) : Int :=
  results.foldl
    (fun acc r => if r.real_dash_id == id then acc + r.query_run_count else acc)
    0

/-- `get_dashboard_usage` output loop (views.py 169-185): for each
dashboard the matching run counts are summed, and the record is emitted
only when `dashboard.id and dashboard.title` is truthy. -/
def get_dashboard_usage (results : List HistoryRow) :
    List RawDashboard → List DashboardUsage
  | [] => []
  | d :: rest =>
    if pyTruthy d.id && pyTruthy d.title then
      ⟨d.id.getD "", d.title.getD "", dashRunCount results d.id⟩ ::
        get_dashboard_usage results rest
    else
      get_dashboard_usage results rest

/-- Runtime errors of the statistics layer.  `zeroDivisionError` is
Python's implicit `ZeroDivisionError`; `degenerateInput` is the explicit
error kind the spec (§7) asks for — the source never raises it. -/
inductive PyError where
  | zeroDivisionError
  | degenerateInput
  deriving DecidableEq, Repr

/-- Ordering used by `sorted(abandoned_dashboards, key=....dashboard_id)`. -/
def byDashId (a b : DashboardUsage) : Prop :=
  a.dashboard_id ≤ b.dashboard_id

instance : DecidableRel byDashId :=
  fun a b => inferInstanceAs (Decidable (a.dashboard_id ≤ b.dashboard_id))

instance : IsTotal DashboardUsage byDashId :=
  ⟨fun a b => le_total a.dashboard_id b.dashboard_id⟩

instance : IsTrans DashboardUsage byDashId :=
  ⟨fun _ _ _ h h2 => le_trans h h2⟩

/-- Payload of the abandoned-dashboards report (`models.py`,
`AbandonedDashboardResult`, without the constant name fields). -/
structure AbandonedDashboardResult where
  pct_abandoned : ℚ
  count_abandoned : Nat
  sample_abandoned_dashboards : List DashboardUsage
  deriving DecidableEq, Repr

/-- `abandoned_dashboards` endpoint body (views.py 110-128): counts the
joined dashboards, filters those with `query_count == 0`, divides, and
samples the first 3 in `dashboard_id` order.  The division
`abandoned_dashboard_count / dashboard_count` raises an (implicit)
`ZeroDivisionError` when the dashboard count is zero. -/
def abandoned_dashboards (dashboards : List RawDashboard) (results : List HistoryRow) :
    Except PyError AbandonedDashboardResult :=
  let ds := get_dashboard_usage results dashboards
  let dashboard_count := ds.length
  let ab := ds.filter (fun d => d.query_count == 0)
  let abandoned_dashboard_count := ab.length
  if dashboard_count = 0 then .error .zeroDivisionError
  else
    .ok ⟨(abandoned_dashboard_count : ℚ) / (dashboard_count : ℚ),
      abandoned_dashboard_count,
      (ab.insertionSort byDashId).take 3⟩

/-- A user as returned by
`client.all_users(fields="id,is_disabled,verified_looker_employee")`. -/
structure LookerUser where
  id : Option String
  is_disabled : Bool
  verified_looker_employee : Bool
  deriving DecidableEq, Repr

/-- Python `x in list` for an optional id against a list of id strings
(`None in [...]` is false for string lists). -/
def pyIdIn (id : Option String) (ids : List String) : Bool :=
  match id with
  | none => false
  | some s => ids.contains s

/-- Counting part of `get_inactive_user_percentage` (views.py 259-270):
disabled users and Looker employees are filtered out, inactive users are
those whose id is not among the active ids, and the percentage divides
by the filtered user count — an implicit `ZeroDivisionError` when that
count is zero. -/
def inactive_user_core (all_users : List LookerUser) (active_ids : List String) :
    Except PyError ℚ :=
  let filtered :=
    all_users.filter (fun u => !u.is_disabled && !u.verified_looker_employee)
  let all_users_count := filtered.length
  let inactive := filtered.filter (fun u => !(pyIdIn u.id active_ids))
  if all_users_count = 0 then .error .zeroDivisionError
  else .ok ((inactive.length : ℚ) / (all_users_count : ℚ))

/-- One output row of `get_unused_fields` (views.py 465-472). -/
structure FieldUsage where
  model_name : String
  explore_name : String
  field : String
  times_used : Int
  deriving DecidableEq, Repr

/-- `unused_explores` endpoint filter (views.py 96): an explore is
classified unused exactly when its joined `query_count` equals zero. -/
def unusedExploresOf (explores : List ExploreQueries) : List ExploreQueries :=
  explores.filter (fun e => e.query_count == 0)

/-- `get_unused_fields` filter (views.py 475): a field is classified
unused exactly when its summed `times_used` is strictly below 50. -/
def unusedFieldsOf (fields : List FieldUsage) : List FieldUsage :=
  fields.filter (fun f => f.times_used < 50)

/-- The page served by the upstream at a given offset when the full
upstream collection is `items` and the page size is the 100 used at
every call site (`limit=100`). -/
def pageAt (items : List α) (offset : Nat) : List α :=
  (items.drop offset).take 100

/-- The all-users pagination loop of `get_inactive_user_percentage`
(views.py 241-257): fetch the page at the current offset; stop when it
is empty, otherwise append it and advance the offset by 100. -/
def collectEmptyAux (items : List α) (offset : Nat) : List α :=
  if _h : (pageAt items offset).length = 0 then []
  else pageAt items offset ++ collectEmptyAux items (offset + 100)
termination_by items.length - offset
decreasing_by
  simp only [pageAt, List.length_take, List.length_drop] at _h
  omega

/-- The model-listing pagination loops of `get_explore_field_count` and
`get_unused_explores` (views.py 295-308, 345-360): fetch the page at the
current offset and append it; stop when it held fewer than 100 items,
otherwise advance the offset by 100. -/
def collectShortAux (items : List α) (offset : Nat) : List α :=
  if _h : (pageAt items offset).length < 100 then pageAt items offset
  else pageAt items offset ++ collectShortAux items (offset + 100)
termination_by items.length - offset
decreasing_by
  simp only [pageAt, List.length_take, List.length_drop] at _h
  omega

/-- Empty-page-terminated collection starting at offset 0. -/
def collectEmpty (items : List α) : List α :=
  collectEmptyAux items 0

/-- Short-page-terminated collection starting at offset 0. -/
def collectShort (items : List α) : List α :=
  collectShortAux items 0

/-- Python `sorted` on rationals (stable, ascending). -/
def pysorted (l : List ℚ) : List ℚ :=
  l.insertionSort (· ≤ ·)

/-- Python `statistics.median`: sort, then take the middle element (odd
length) or the mean of the two middle elements (even length); the empty
list raises `StatisticsError`, modelled as `none`. -/
def pymedian (l : List ℚ) : Option ℚ :=
  let n := l.length
  let s := pysorted l
  if n = 0 then none
  else if n % 2 = 1 then some (s.getD (n / 2) 0)
  else some ((s.getD (n / 2 - 1) 0 + s.getD (n / 2) 0) / 2)

/-- Python `int()` on a rational: truncation toward zero. -/
def pyint (q : ℚ) : Int :=
  if 0 ≤ q then q.floor else -((-q).floor)

/-- `int(statistics.median([explore.field_count ...]))` (views.py 82-84). -/
def median_explore_size (field_counts : List Int) : Option Int :=
  (pymedian (field_counts.map (fun (c : Int) => (c : ℚ)))).map pyint

/-- Modelled from the spec (§4.4, §8): the standard median of a list —
the middle element of the sorted list for odd length, the arithmetic
mean of the two middle elements for even length, undefined for the
empty list. -/
def specMedian (l : List ℚ) : Option ℚ :=
  if l.length = 0 then none
  else
    let s := l.insertionSort (· ≤ ·)
    let n := l.length
    if n % 2 = 1 then some (s.getD (n / 2) 0)
    else some ((s.getD (n / 2 - 1) 0 + s.getD (n / 2) 0) / 2)

/-- `rmli.models.ExplorePerformance` (runtimes in seconds). -/
structure ExplorePerformance where
  model_name : String
  explore_name : String
  avg_runtime : ℚ
  max_runtime : ℚ
  deriving DecidableEq, Repr

/-- Threshold chain of `SlowExploresResult.grade` (models.py 106-113),
as applied to `slow_explores[0].avg_runtime`. -/
def gradeOfAvgRuntime (avg : ℚ) : Grade :=
  if avg > 40 then .bad
  else if avg > 20 then .ok
  else .good

/-- `SlowExploresResult.grade`: reads `slow_explores[0]`; `none` models
the `IndexError` on an empty list. -/
def slowExploresGrade (slow_explores : List ExplorePerformance) : Option Grade :=
  match slow_explores with
  | [] => none
  | x :: _ => some (gradeOfAvgRuntime x.avg_runtime)

/-- Ordering used by
`sorted(slow_explores, key=....avg_runtime, reverse=True)` (stable
descending: ties keep original order). -/
def byAvgDesc (a b : ExplorePerformance) : Prop :=
  b.avg_runtime ≤ a.avg_runtime

instance : DecidableRel byAvgDesc :=
  fun a b => inferInstanceAs (Decidable (b.avg_runtime ≤ a.avg_runtime))

instance : IsTotal ExplorePerformance byAvgDesc :=
  ⟨fun a b => le_total b.avg_runtime a.avg_runtime⟩

instance : IsTrans ExplorePerformance byAvgDesc :=
  ⟨fun _ _ _ h h2 => le_trans h2 h⟩

/-- Top-3 selection of the `slow_explores` endpoint (views.py 68-70). -/
def slowExploresTop (l : List ExplorePerformance) : List ExplorePerformance :=
  (l.insertionSort byAvgDesc).take 3

/-- A pagination run whose page fetches can fail (the page fetch at each
offset is a remote call raising `Err`).  Empty-page termination as in
`get_inactive_user_percentage`.  Returns the outcome together with the
log of offsets fetched, in order; `none` means the fuel was too small
(modelling artifact only — every theorem below supplies enough fuel). -/
def pagFetchAux (fetch : Nat → Except Err (List Nat)) :
    Nat → Nat → Option (Except Err (List Nat) × List Nat)
  | 0, _ => none
  | fuel + 1, offset =>
    match fetch offset with
    | .error e => some (.error e, [offset])
    | .ok page =>
      if page.length = 0 then some (.ok [], [offset])
      else
        match pagFetchAux fetch fuel (offset + 100) with
        | none => none
        | some (.ok restItems, log) => some (.ok (page ++ restItems), offset :: log)
        | some (.error e, log) => some (.error e, offset :: log)

/-- The `backoff` decorator as the code applies it: it wraps the whole
function body, so a retry re-runs the entire pagination from offset 0.
`sched attempt offset` is the upstream's answer for a given attempt of
the whole body; the returned log concatenates the offsets fetched across
all attempts. -/
def retryPaginate (sched : Nat → Nat → Except Err (List Nat)) (fuel : Nat) :
    Nat → Nat → Option (Except Err (List Nat) × List Nat)
  | attempt, remaining =>
    match pagFetchAux (sched attempt) fuel 0 with
    | none => none
    | some (.ok items, log) => some (.ok items, log)
    | some (.error e, log) =>
      match remaining with
      | 0 => some (.error e, log)
      | r + 1 =>
        if e.isTransient && 0 < r then
          match retryPaginate sched fuel (attempt + 1) r with
          | none => none
          | some (res, log2) => some (res, log ++ log2)
        else some (.error e, log)

/-- A concrete upstream schedule: on the first attempt the page at
offset 0 succeeds with one item and the page at offset 100 fails
transiently; on every later attempt offset 0 yields the item and offset
100 yields the empty page. -/
def schedC7 : Nat → Nat → Except Err (List Nat)
  | 0, 0 => .ok [1]
  | 0, _ => .error (.sdk 1)
  | _, 0 => .ok [1]
  | _, _ => .ok []

/-- A concrete explore-performance record whose average runtime sits on
the 40-second grading boundary. -/
def epW : ExplorePerformance :=
  ⟨"orders", "orders_explore", 40, 50⟩

/-- A conditional-accumulation `foldl` (the shape of the Python join
loops) equals the sum over the filtered, projected list. -/
theorem foldl_if_add {β : Type} (p : β → Bool) (f : β → Int) :
    ∀ (l : List β) (acc : Int),
      l.foldl (fun a r => if p r then a + f r else a) acc
        = acc + ((l.filter p).map f).sum := by
  intro l
  induction l with
  | nil => intro acc; simp
  | cons b t ih =>
    intro acc
    by_cases hb : p b
    · simp [hb, ih, List.filter_cons, add_assoc]
    · simp [hb, ih, List.filter_cons]

/-- The inner counter of the explore join is the sum of the matching
rows' run counts. -/
theorem exploreRunCount_eq_sum (results : List UsageRow) (m e : String) :
    exploreRunCount results m e
      = ((results.filter (fun r => r.query_model == m && r.query_view == e)).map
          (fun r => r.query_run_count)).sum := by
  unfold exploreRunCount
  rw [foldl_if_add]
  exact zero_add _

/-- The inner counter of the dashboard join is the sum of the matching
rows' run counts. -/
theorem dashRunCount_eq_sum (results : List HistoryRow) (id : Option String) :
    dashRunCount results id
      = ((results.filter (fun r => r.real_dash_id == id)).map
          (fun r => r.query_run_count)).sum := by
  unfold dashRunCount
  rw [foldl_if_add]
  exact zero_add _

/-- C1 (Join Engine correctness): the explore join assigns to every
catalog entity, in order, the sum of the usage measures over the rows
whose composite key (model, explore) matches exactly — zero when no row
matches, since the sum over the empty filter is zero; the dashboard join
assigns every emitted dashboard the sum of the run counts of the rows
whose `real_dash_id` equals its id; and on the concrete catalog
`[(m1,e1),(m1,e2)]` with usage rows
`[{m1,e1,5},{m1,e1,3},{m1,e2,0}]` the joined counts are 8 and 0. -/
theorem join_engine_correct :
    (∀ (explores : List ExploreKey) (results : List UsageRow),
      joinExploreUsage explores results
        = explores.map (fun ex =>
            ⟨ex.model_name, ex.explore_name,
              ((results.filter (fun r =>
                  r.query_model == ex.model_name && r.query_view == ex.explore_name)).map
                (fun r => r.query_run_count)).sum⟩))
    ∧ (∀ (results : List HistoryRow) (dashboards : List RawDashboard)
        (u : DashboardUsage), u ∈ get_dashboard_usage results dashboards →
        u.query_count
          = ((results.filter (fun r => r.real_dash_id == some u.dashboard_id)).map
              (fun r => r.query_run_count)).sum)
    ∧ joinExploreUsage [⟨"m1", "e1"⟩, ⟨"m1", "e2"⟩]
        [⟨"m1", "e1", 5⟩, ⟨"m1", "e1", 3⟩, ⟨"m1", "e2", 0⟩]
        = [⟨"m1", "e1", 8⟩, ⟨"m1", "e2", 0⟩] := by
  refine ⟨?_, ?_, by decide⟩
  · intro explores results
    simp [joinExploreUsage, exploreRunCount_eq_sum]
  · intro results dashboards u
    induction dashboards with
    | nil => intro hu; simp [get_dashboard_usage] at hu
    | cons d rest ih =>
      intro hu
      by_cases hd : pyTruthy d.id && pyTruthy d.title
      · simp only [get_dashboard_usage, hd, if_true] at hu
        rcases List.mem_cons.mp hu with h | h
        · obtain ⟨s, hs⟩ : ∃ s, d.id = some s := by
            rcases hid : d.id with _ | s
            · rw [hid] at hd; simp [pyTruthy] at hd
            · exact ⟨s, rfl⟩
          subst h
          simp [hs, dashRunCount_eq_sum]
        · exact ih h
      · simp only [get_dashboard_usage, hd, if_false, Bool.false_eq_true] at hu
        exact ih hu

/-- Witness for C1 at a concrete input: dashboard `d1` receives the sum
5 + 2 = 7 of its two matching usage rows. -/
theorem join_engine_correct_witness :
    ((⟨"d1", "t1", 7⟩ : DashboardUsage) ∈
        get_dashboard_usage [⟨some "d1", 5⟩, ⟨some "d2", 9⟩, ⟨some "d1", 2⟩]
          ([⟨some "d1", some "t1"⟩] : List RawDashboard))
    ∧ (⟨"d1", "t1", 7⟩ : DashboardUsage).query_count
        = ((([⟨some "d1", 5⟩, ⟨some "d2", 9⟩, ⟨some "d1", 2⟩] : List HistoryRow).filter
            (fun r => r.real_dash_id == some (⟨"d1", "t1", 7⟩ : DashboardUsage).dashboard_id)).map
              (fun r => r.query_run_count)).sum :=
  ⟨by decide,
   join_engine_correct.2.1 [⟨some "d1", 5⟩, ⟨some "d2", 9⟩, ⟨some "d1", 2⟩]
     ([⟨some "d1", some "t1"⟩] : List RawDashboard) ⟨"d1", "t1", 7⟩ (by decide)⟩

/-- C3 counterexample: after exhausting its three attempts on a
transient `SDKError`, the retrying invoker re-raises that very error; it
is not the distinct `UpstreamExhausted` kind, so a caller cannot
distinguish exhaustion from an immediate rejection by the error kind. -/
theorem retry_exhaustion_unchanged_error :
    backoffRetry (fun _ => (Except.error (Err.sdk 7) : Except Err Nat)) 3
      = (Except.error (Err.sdk 7), 3)
    ∧ (Except.error (Err.sdk 7) : Except Err Nat)
      ≠ Except.error Err.upstreamExhausted :=
  ⟨rfl, by simp⟩

/-- C3 (amended): a call failing transiently on its first two attempts
and succeeding on the third returns the successful result after exactly
three invocations; a call that would need a fourth attempt instead
propagates the last transient error itself (the same `SDKError` value,
with no distinct exhaustion tag) after exactly three invocations. -/
theorem retry_budget_and_exhaustion :
    ∀ (α : Type) (op : Nat → Except Err α) (v : α) (e0 e1 e2 : Nat),
      (op 0 = .error (.sdk e0) → op 1 = .error (.sdk e1) → op 2 = .ok v →
        backoffRetry op 3 = (.ok v, 3))
      ∧ (op 0 = .error (.sdk e0) → op 1 = .error (.sdk e1) →
          op 2 = .error (.sdk e2) →
        backoffRetry op 3 = (.error (.sdk e2), 3)) := by
  intro α op v e0 e1 e2
  constructor
  · intro h0 h1 h2
    simp [backoffRetry, backoffGo, h0, h1, h2, Err.isTransient]
  · intro h0 h1 h2
    simp [backoffRetry, backoffGo, h0, h1, h2, Err.isTransient]

/-- Witness for C3 at a concrete operation that succeeds on its third
attempt. -/
theorem retry_budget_and_exhaustion_witness :
    backoffRetry
      (fun n => if n = 2 then (Except.ok 42 : Except Err Nat) else .error (.sdk n)) 3
      = (.ok 42, 3) :=
  (retry_budget_and_exhaustion Nat _ 42 0 1 9).1 rfl rfl rfl

/-- C4 (retry classification): an error the code does not classify as
transient (anything other than `SDKError`, the class named in the
`backoff` decorator) propagates unchanged after exactly one invocation:
no retry happens. -/
theorem nontransient_propagates_immediately :
    ∀ (α : Type) (op : Nat → Except Err α) (e : Err),
      e.isTransient = false → op 0 = .error e →
      backoffRetry op 3 = (.error e, 1) := by
  intro α op e ht h0
  simp [backoffRetry, backoffGo, h0, ht]

/-- Witness for C4: a non-SDK error on the first attempt is returned
after a single invocation. -/
theorem nontransient_propagates_immediately_witness :
    backoffRetry (fun _ => (Except.error (Err.other 4) : Except Err Nat)) 3
      = (Except.error (Err.other 4), 1) :=
  nontransient_propagates_immediately Nat _ (Err.other 4) rfl rfl

/-- C6 counterexample: an explore with 10 runs in the window is NOT
classified unused by the code (the filter keeps only `query_count == 0`),
although 10 < 50 — so the spec's uniform strictly-less-than-50 rule does
not hold for the unused-explores computation. -/
theorem unused_explore_threshold_ce :
    unusedExploresOf [⟨"m1", "e1", 10⟩] = [] ∧ (10 : Int) < 50 :=
  ⟨rfl, by decide⟩

/-- C6 (amended): in the unused-fields computation an entity is
classified unused exactly when its summed usage is strictly below 50,
but in the unused-explores computation an explore is classified unused
exactly when its summed usage equals zero. -/
theorem unused_threshold :
    ∀ (explores : List ExploreQueries) (fields : List FieldUsage)
      (e : ExploreQueries) (f : FieldUsage),
      (e ∈ explores → (e ∈ unusedExploresOf explores ↔ e.query_count = 0))
      ∧ (f ∈ fields → (f ∈ unusedFieldsOf fields ↔ f.times_used < 50)) := by
  intro explores fields e f
  constructor
  · intro he
    simp [unusedExploresOf, List.mem_filter, he]
  · intro hf
    simp [unusedFieldsOf, List.mem_filter, hf]

/-- Witness for C6 at concrete entities on both sides of the thresholds. -/
theorem unused_threshold_witness :
    ((⟨"m", "e", 0⟩ : ExploreQueries) ∈ unusedExploresOf [⟨"m", "e", 0⟩]
      ↔ (⟨"m", "e", 0⟩ : ExploreQueries).query_count = 0)
    ∧ ((⟨"m", "e", "f", 49⟩ : FieldUsage) ∈ unusedFieldsOf [⟨"m", "e", "f", 49⟩]
      ↔ (⟨"m", "e", "f", 49⟩ : FieldUsage).times_used < 50) :=
  ⟨(unused_threshold [⟨"m", "e", 0⟩] [⟨"m", "e", "f", 49⟩]
      ⟨"m", "e", 0⟩ ⟨"m", "e", "f", 49⟩).1 (by decide),
   (unused_threshold [⟨"m", "e", 0⟩] [⟨"m", "e", "f", 49⟩]
      ⟨"m", "e", 0⟩ ⟨"m", "e", "f", 49⟩).2 (by decide)⟩

/-- C10 (implicit): the dashboard join emits exactly the dashboards
whose id and title are both present and non-empty, keyed in input
order — so a dashboard missing either appears in neither the output nor
any count or denominator computed from it. -/
theorem missing_id_title_excluded :
    ∀ (results : List HistoryRow) (dashboards : List RawDashboard),
      get_dashboard_usage results dashboards
        = (dashboards.filter (fun d => pyTruthy d.id && pyTruthy d.title)).map
            (fun d => ⟨d.id.getD "", d.title.getD "", dashRunCount results d.id⟩)
      ∧ (get_dashboard_usage results dashboards).length
        = (dashboards.filter (fun d => pyTruthy d.id && pyTruthy d.title)).length := by
  intro results dashboards
  have h1 : get_dashboard_usage results dashboards
      = (dashboards.filter (fun d => pyTruthy d.id && pyTruthy d.title)).map
          (fun d => ⟨d.id.getD "", d.title.getD "", dashRunCount results d.id⟩) := by
    induction dashboards with
    | nil => simp [get_dashboard_usage]
    | cons d rest ih =>
      by_cases hd : pyTruthy d.id && pyTruthy d.title
      · simp [get_dashboard_usage, hd, ih, List.filter_cons]
      · simp [get_dashboard_usage, hd, ih, List.filter_cons]
  exact ⟨h1, by rw [h1]; simp⟩

/-- C5 counterexample: with zero dashboards the percentage computation
raises Python's implicit `ZeroDivisionError`; it does not raise the
explicit `DegenerateInput` kind the claim names (no such guard exists in
the code). -/
theorem zero_total_zerodivision_ce :
    abandoned_dashboards [] [] = .error PyError.zeroDivisionError
    ∧ (Except.error PyError.zeroDivisionError : Except PyError AbandonedDashboardResult)
      ≠ .error PyError.degenerateInput :=
  ⟨rfl, by simp⟩

/-- C5 (amended): every percentage computation with a zero total fails
with the implicit `ZeroDivisionError` (there is no explicit
`DegenerateInput` guard), and it never returns a NaN or infinite value —
the embedded result type is `ℚ` and the division branch is only reached
when the total is positive, in which case the computation succeeds. -/
theorem zero_total_guard :
    ∀ (dashboards : List RawDashboard) (results : List HistoryRow)
      (users : List LookerUser) (act : List String),
      (get_dashboard_usage results dashboards = [] →
        abandoned_dashboards dashboards results = .error PyError.zeroDivisionError)
      ∧ (get_dashboard_usage results dashboards ≠ [] →
        ∃ r, abandoned_dashboards dashboards results = .ok r)
      ∧ (users.filter (fun u => !u.is_disabled && !u.verified_looker_employee) = [] →
        inactive_user_core users act = .error PyError.zeroDivisionError)
      ∧ (users.filter (fun u => !u.is_disabled && !u.verified_looker_employee) ≠ [] →
        ∃ q, inactive_user_core users act = .ok q) := by
  intro dashboards results users act
  refine ⟨?_, ?_, ?_, ?_⟩
  · intro h
    simp [abandoned_dashboards, h]
  · intro h
    have hlen : (get_dashboard_usage results dashboards).length ≠ 0 := by
      simpa [List.length_eq_zero] using h
    simp only [abandoned_dashboards]
    rw [if_neg hlen]
    exact ⟨_, rfl⟩
  · intro h
    simp [inactive_user_core, h]
  · intro h
    have hlen :
        (users.filter (fun u => !u.is_disabled && !u.verified_looker_employee)).length
          ≠ 0 := by
      simpa [List.length_eq_zero] using h
    simp only [inactive_user_core]
    rw [if_neg hlen]
    exact ⟨_, rfl⟩

/-- Witness for C5: the zero-total branches and the positive-total
branches, each at a concrete input. -/
theorem zero_total_guard_witness :
    abandoned_dashboards [] [] = .error PyError.zeroDivisionError
    ∧ (∃ r, abandoned_dashboards ([⟨some "d1", some "t1"⟩] : List RawDashboard) []
        = .ok r)
    ∧ inactive_user_core [] [] = .error PyError.zeroDivisionError
    ∧ (∃ q, inactive_user_core ([⟨some "u1", false, false⟩] : List LookerUser) []
        = .ok q) :=
  ⟨(zero_total_guard [] [] [] []).1 rfl,
   (zero_total_guard [⟨some "d1", some "t1"⟩] [] [] []).2.1 (by decide),
   (zero_total_guard [] [] [] []).2.2.1 rfl,
   (zero_total_guard [] [] [⟨some "u1", false, false⟩] []).2.2.2 (by decide)⟩

/-- The empty-page-terminated collector starting at `offset` returns the
suffix of the upstream collection from `offset` on. -/
theorem collectEmptyAux_eq_drop {α : Type} (items : List α) :
    ∀ (offset : Nat), collectEmptyAux items offset = items.drop offset := by
  suffices h : ∀ (n offset : Nat), items.length - offset ≤ n →
      collectEmptyAux items offset = items.drop offset from
    fun offset => h (items.length - offset) offset le_rfl
  intro n
  induction n with
  | zero =>
    intro offset hle
    have hlen : items.length ≤ offset := by omega
    rw [collectEmptyAux]
    simp [pageAt, List.drop_eq_nil_of_le hlen]
  | succ n ih =>
    intro offset hle
    rw [collectEmptyAux]
    by_cases hp : (pageAt items offset).length = 0
    · have hlen : items.length ≤ offset := by
        simp only [pageAt, List.length_take, List.length_drop] at hp
        omega
      simp [hp, List.drop_eq_nil_of_le hlen]
    · have hoff : offset < items.length := by
        simp only [pageAt, List.length_take, List.length_drop] at hp
        omega
      rw [dif_neg hp, ih (offset + 100) (by omega)]
      rw [pageAt, ← List.drop_drop, List.take_append_drop]

/-- The short-page-terminated collector starting at `offset` returns the
suffix of the upstream collection from `offset` on. -/
theorem collectShortAux_eq_drop {α : Type} (items : List α) :
    ∀ (offset : Nat), collectShortAux items offset = items.drop offset := by
  suffices h : ∀ (n offset : Nat), items.length - offset ≤ n →
      collectShortAux items offset = items.drop offset from
    fun offset => h (items.length - offset) offset le_rfl
  intro n
  induction n with
  | zero =>
    intro offset hle
    have hlen : items.length ≤ offset := by omega
    rw [collectShortAux]
    have hp : (pageAt items offset).length < 100 := by
      simp only [pageAt, List.length_take, List.length_drop]
      omega
    rw [dif_pos hp, pageAt, List.drop_eq_nil_of_le hlen]
    simp
  | succ n ih =>
    intro offset hle
    rw [collectShortAux]
    by_cases hp : (pageAt items offset).length < 100
    · have hshort : (items.drop offset).length ≤ 100 := by
        simp only [pageAt, List.length_take, List.length_drop] at hp
        simp only [List.length_drop]
        omega
      rw [dif_pos hp, pageAt, List.take_of_length_le hshort]
    · have hoff : 100 ≤ items.length - offset := by
        simp only [pageAt, List.length_take, List.length_drop] at hp
        omega
      rw [dif_neg hp, ih (offset + 100) (by omega)]
      rw [pageAt, ← List.drop_drop, List.take_append_drop]

/-- C2 (Paginated Collector exactness): for every upstream collection,
paging through it at offsets 0, 100, 200, ... returns exactly the whole
collection in its original order, under both the empty-page and the
short-page termination policies — in particular for the empty collection
and for collections whose size is an exact multiple of the page size. -/
theorem paginated_collector_exact :
    ∀ (α : Type) (items : List α),
      collectEmpty items = items ∧ collectShort items = items := by
  intro α items
  constructor
  · simpa using collectEmptyAux_eq_drop items 0
  · simpa using collectShortAux_eq_drop items 0

/-- `statistics.median` as embedded from the code computes exactly the
spec's standard median. -/
theorem pymedian_eq_specMedian : ∀ (l : List ℚ), pymedian l = specMedian l := by
  intro l
  simp [pymedian, specMedian, pysorted]

/-- C8 counterexample: for field counts `[10, 21, 30, 40]` the code
computes 25 (`int(statistics.median(...))` truncates), while the
standard median is 51/2 = 25.5 — so `median_explore_size` does not equal
the standard median in general. -/
theorem median_not_standard :
    median_explore_size [10, 21, 30, 40] = some 25
    ∧ specMedian [(10 : ℚ), 21, 30, 40] = some (51 / 2)
    ∧ (25 : ℚ) ≠ 51 / 2 := by
  refine ⟨?_, ?_, by norm_num⟩
  · norm_num [median_explore_size, pymedian, pysorted, pyint,
      List.insertionSort, List.orderedInsert, Rat.floor_def']
  · norm_num [specMedian, List.insertionSort, List.orderedInsert]

/-- C8 (amended): `median_explore_size` equals the standard median of
the field counts truncated toward zero by Python `int()` — hence equals
the standard median itself whenever that median is an integer, as in the
spec's examples `[10,20,30,40] ↦ 25` and `[10,20,30] ↦ 20`. -/
theorem median_truncated :
    (∀ (field_counts : List Int) (q : ℚ),
      specMedian (field_counts.map (fun (c : Int) => (c : ℚ))) = some q →
      median_explore_size field_counts = some (pyint q))
    ∧ median_explore_size [10, 20, 30, 40] = some 25
    ∧ median_explore_size [10, 20, 30] = some 20 := by
  refine ⟨?_, ?_, ?_⟩
  · intro field_counts q h
    simp [median_explore_size, pymedian_eq_specMedian, h]
  · norm_num [median_explore_size, pymedian, pysorted, pyint,
      List.insertionSort, List.orderedInsert, Rat.floor_def']
  · norm_num [median_explore_size, pymedian, pysorted, pyint,
      List.insertionSort, List.orderedInsert, Rat.floor_def']

/-- Witness for C8: the truncated standard median at a concrete even
list with a half-integer median. -/
theorem median_truncated_witness :
    median_explore_size [10, 21, 30, 40] = some (pyint (51 / 2)) :=
  median_truncated.1 [10, 21, 30, 40] (51 / 2)
    (by norm_num [specMedian, List.insertionSort, List.orderedInsert])

/-- C9 (grading boundary strictness): the slow-explores grade is the
threshold chain applied to the largest average runtime in the payload
(the head of the stable descending sort the endpoint produces), graded
`bad` exactly when it exceeds 40, `ok` exactly when it is in (20, 40],
and `good` exactly when it is at most 20 — in particular 40 grades `ok`
and 40.01 grades `bad`. -/
theorem slow_grade_boundaries :
    ∀ (l : List ExplorePerformance), l ≠ [] →
      (∃ top, top ∈ l ∧ (∀ x ∈ l, x.avg_runtime ≤ top.avg_runtime) ∧
        slowExploresGrade (slowExploresTop l)
          = some (gradeOfAvgRuntime top.avg_runtime))
      ∧ gradeOfAvgRuntime 40 = Grade.ok
      ∧ gradeOfAvgRuntime (4001 / 100) = Grade.bad
      ∧ (∀ a : ℚ, gradeOfAvgRuntime a = Grade.bad ↔ 40 < a)
      ∧ (∀ a : ℚ, gradeOfAvgRuntime a = Grade.ok ↔ 20 < a ∧ a ≤ 40)
      ∧ (∀ a : ℚ, gradeOfAvgRuntime a = Grade.good ↔ a ≤ 20) := by
  intro l hl
  refine ⟨?_, by decide, by norm_num [gradeOfAvgRuntime], ?_, ?_, ?_⟩
  · have hperm := List.perm_insertionSort byAvgDesc l
    have hsorted := List.sorted_insertionSort byAvgDesc l
    cases hs : l.insertionSort byAvgDesc with
    | nil =>
      rw [hs] at hperm
      exact absurd hperm.symm.eq_nil hl
    | cons top t =>
      refine ⟨top, ?_, ?_, ?_⟩
      · have hm : top ∈ l.insertionSort byAvgDesc := by
          rw [hs]; exact List.mem_cons_self _ _
        exact hperm.mem_iff.mp hm
      · intro x hx
        have hx2 : x ∈ l.insertionSort byAvgDesc := hperm.mem_iff.mpr hx
        rw [hs] at hx2
        rcases List.mem_cons.mp hx2 with h | h
        · exact h ▸ le_refl _
        · rw [hs] at hsorted
          exact (List.pairwise_cons.mp hsorted).1 x h
      · simp [slowExploresTop, slowExploresGrade, hs]
  · intro a
    constructor
    · intro hg
      by_contra hn
      unfold gradeOfAvgRuntime at hg
      rw [if_neg hn] at hg
      by_cases h2 : a > 20
      · rw [if_pos h2] at hg
        exact Grade.noConfusion hg
      · rw [if_neg h2] at hg
        exact Grade.noConfusion hg
    · intro h40
      unfold gradeOfAvgRuntime
      rw [if_pos h40]
  · intro a
    constructor
    · intro hg
      unfold gradeOfAvgRuntime at hg
      by_cases h1 : a > 40
      · rw [if_pos h1] at hg
        exact Grade.noConfusion hg
      · rw [if_neg h1] at hg
        by_cases h2 : a > 20
        · exact ⟨h2, not_lt.mp h1⟩
        · rw [if_neg h2] at hg
          exact Grade.noConfusion hg
    · rintro ⟨h20, h40⟩
      unfold gradeOfAvgRuntime
      rw [if_neg (not_lt.mpr h40), if_pos h20]
  · intro a
    constructor
    · intro hg
      unfold gradeOfAvgRuntime at hg
      by_cases h1 : a > 40
      · rw [if_pos h1] at hg
        exact Grade.noConfusion hg
      · rw [if_neg h1] at hg
        by_cases h2 : a > 20
        · rw [if_pos h2] at hg
          exact Grade.noConfusion hg
        · exact not_lt.mp h2
    · intro h20
      unfold gradeOfAvgRuntime
      rw [if_neg (not_lt.mpr (h20.trans (by norm_num))), if_neg (not_lt.mpr h20)]

/-- Witness for C9: a single explore averaging exactly 40 seconds grades
`ok`, not `bad`. -/
theorem slow_grade_boundaries_witness :
    slowExploresGrade (slowExploresTop [epW]) = some Grade.ok := by
  obtain ⟨top, hmem, _, hg⟩ :=
    (slow_grade_boundaries [epW] (List.cons_ne_nil _ _)).1
  have htop : top = epW := by simpa using hmem
  rw [htop] at hg
  rw [hg]
  decide

/-- C7 counterexample: with a transient failure at offset 100 on the
first run and success on the second, the decorated pagination fetches
offset 0 twice (the log of fetched offsets is `[0, 100, 0, 100]`) — the
already-collected page 0 is re-fetched, so page fetches are not retried
in isolation. -/
theorem page_retry_not_isolated :
    retryPaginate schedC7 5 0 3 = some (.ok [1], [0, 100, 0, 100])
    ∧ List.count 0 [0, 100, 0, 100] ≠ 1 :=
  ⟨rfl, by decide⟩

/-- C7 (amended): the retry decorator wraps each report function as a
whole, not each remote call: when the first whole-body run of a
pagination fails transiently and the second run succeeds, the result is
that of the second run and the fetch log is the concatenation of both
runs' logs — the entire pagination is re-run from offset 0 rather than
re-attempting only the failed page. -/
theorem whole_function_retry :
    ∀ (sched : Nat → Nat → Except Err (List Nat)) (fuel : Nat) (e : Err)
      (log1 : List Nat) (items : List Nat) (log2 : List Nat),
      pagFetchAux (sched 0) fuel 0 = some (.error e, log1) →
      e.isTransient = true →
      pagFetchAux (sched 1) fuel 0 = some (.ok items, log2) →
      retryPaginate sched fuel 0 3 = some (.ok items, log1 ++ log2) := by
  intro sched fuel e log1 items log2 h0 ht h1
  simp [retryPaginate, h0, h1, ht]

/-- Witness for C7 at the concrete schedule: the whole-body retry yields
the item and the concatenated two-run fetch log. -/
theorem whole_function_retry_witness :
    retryPaginate schedC7 5 0 3 = some (.ok [1], [0, 100] ++ [0, 100]) :=
  whole_function_retry schedC7 5 (.sdk 1) [0, 100] [1] [0, 100] rfl rfl rfl

end RMLI
